import Mathlib

/-!
Shallow embedding of `tweet/main.go` (the Twitter feed bot): the pipeline
`tweetFeed` / `tweetItem` over a MongoDB-backed store of `Tweet` records.

External collaborators (the Twitter API, the MongoDB driver and the feed
parser) are modelled by an oracle structure `Ext` giving the outcome of each
external call; the store itself is a list of records, and every store or
network call is logged in an event trace so that ordering and resource
properties can be stated.

Go semantics that matter here and are modelled faithfully:
  * `count, _ := tweets.Find(bson.M{"url": item.Link}).Count()` discards the
    query error; mgo's `Count` returns the zero value 0 alongside an error.
  * `log.Fatal` (logrus) calls `os.Exit(1)`, which terminates the process
    immediately; deferred functions such as `defer session.Close()` are NOT
    run on that path.
  * the unique index on `url` makes `Insert` fail with a duplicate-key error
    when the url is already present; any insert error is only logged
    (`log.Error`) and `tweetItem` still returns `true`.
-/

namespace TwBot

/-- A feed item (`gofeed.Item`): only `Title` and `Link` are used. -/
structure Item where
  title : String
  link : String
deriving DecidableEq, Repr

/-- A published record (`Tweet` struct): the `_id` is assigned by the store
and never read back, so it is omitted; `time.Now()` is modelled by a logical
clock threaded through the run. -/
structure Tweet where
  title : String
  url : String
  timestamp : Nat
deriving DecidableEq, Repr

/-- Outcomes of the external calls made during one invocation:
`verifyOk` for `api.VerifyCredentials`, `dialOk` for `mgo.Dial`,
`findErr u` for whether the dedup query on url `u` returns an error,
`postOk m` for whether `api.PostTweet m` succeeds, and `insertFail u` for a
non-duplicate-key insert failure on url `u` (duplicate keys are determined
by the store contents themselves). -/
structure Ext where
  verifyOk : Bool
  dialOk : Bool
  findErr : String → Bool
  postOk : String → Bool
  insertFail : String → Bool

/-- Events of one invocation: credential verification, store connect
(`mgo.Dial`), the fire-and-forget `ensureIndex`, and per item the session
copy (`acquire`), the dedup count `query`, the external `post`, the store
`insert`, and the deferred session close (`release`). -/
inductive Ev where
  | verify : Ev
  | dial : Ev
  | ensureIndex : Ev
  | acquire : Ev
  | query : String → Ev
  | post : String → Ev
  | insert : String → Ev
  | release : Ev
deriving DecidableEq, Repr

/-- Number of records in the store whose `url` equals `u`. -/
def existsCount (store : List Tweet) (u : String) : Nat :=
  (store.filter (fun t => t.url == u)).length

/-- Result of `tweets.Find(bson.M{"url": u}).Count()`: on success the number
of matching records with no error; on failure mgo returns the zero value 0
together with the error. -/
def findCount (ext : Ext) (store : List Tweet) (u : String) : Nat × Option String :=
  if ext.findErr u then (0, some "find error") else (existsCount store u, none)

/-- The outgoing message: `fmt.Sprintf("%s\n%s", item.Title, item.Link)`. -/
def tweetText (item : Item) : String :=
  item.title ++ "\n" ++ item.link

/-- `tweets.Insert(&Tweet{...})` under the unique index on `url`: fails on a
duplicate key (url already present) or when the oracle reports some other
insert failure; on success the record is appended. Returns the new store and
whether the insert succeeded. -/
def insertResult (ext : Ext) (store : List Tweet) (t : Tweet) : List Tweet × Bool :=
  if existsCount store t.url > 0 || ext.insertFail t.url then
    (store, false)
  else
    (store ++ [t], true)

/-- Outcome of `tweetItem`: the store afterwards, the returned `bool`
(`sent`), the messages actually passed to `api.PostTweet`, whether
`log.Fatal` terminated the process, and the event trace. -/
structure ItemResult where
  store : List Tweet
  sent : Bool
  posts : List String
  fatal : Bool
  trace : List Ev
deriving DecidableEq, Repr

/-- `tweetItem(api, s, item)`: copy the session, query the store for the
item's url (error discarded), skip if present; otherwise format the tweet,
post it unless `ENVIRONMENT == "development"` (a post error is `log.Fatal`,
which exits the process without running the deferred `session.Close`),
insert the record (an insert error is only logged), and return `true`. -/
def tweetItem (ext : Ext) (env : String) (store : List Tweet) (clock : Nat)
    (item : Item) : ItemResult :=
  let count := (findCount ext store item.link).1
  if count > 0 then
    { store := store, sent := false, posts := [], fatal := false,
      trace := [Ev.acquire, Ev.query item.link, Ev.release] }
  else
    let tweet := tweetText item
    if env != "development" && !ext.postOk tweet then
      { store := store, sent := false, posts := [tweet], fatal := true,
        trace := [Ev.acquire, Ev.query item.link, Ev.post tweet] }
    else
      let posted := if env != "development" then [tweet] else []
      let ins := insertResult ext store
        { title := item.title, url := item.link, timestamp := clock }
      { store := ins.1, sent := true, posts := posted, fatal := false,
        trace := [Ev.acquire, Ev.query item.link] ++ posted.map Ev.post
          ++ [Ev.insert item.link, Ev.release] }

/-- Outcome of a whole invocation (`tweetFeed`): final store, the
published-count accumulator, all messages passed to the Publisher in order,
whether the invocation was aborted by `log.Fatal`, and the event trace. On a
fatal outcome `count` is the value accumulated before the abort; it is only
reported (`log.Info`) when `fatal = false`. -/
structure FeedResult where
  store : List Tweet
  count : Nat
  posts : List String
  fatal : Bool
  trace : List Ev
deriving DecidableEq, Repr

/-- The item loop of `tweetFeed`: process items in feed order, incrementing
the count when `tweetItem` returns `true`; a fatal `tweetItem` terminates
the process at once, so the remaining items are never reached. -/
def runItems (ext : Ext) (env : String) : List Tweet → Nat → Nat → List String →
    List Ev → List Item → FeedResult
  | store, _, count, posts, trace, [] =>
      { store := store, count := count, posts := posts, fatal := false,
        trace := trace }
  | store, clock, count, posts, trace, item :: rest =>
      let r := tweetItem ext env store clock item
      if r.fatal then
        { store := r.store, count := count, posts := posts ++ r.posts,
          fatal := true, trace := trace ++ r.trace }
      else
        runItems ext env r.store (clock + 1)
          (count + if r.sent then 1 else 0) (posts ++ r.posts)
          (trace ++ r.trace) rest

/-- `tweetFeed()`: verify credentials (fatal on failure, before any store
operation), dial the store (fatal on failure), fire off `ensureIndex`, then
loop over the feed items counting successful sends. The feed items are the
sequence produced by `getFeedItems`. -/
def tweetFeed (ext : Ext) (env : String) (store : List Tweet)
    (items : List Item) : FeedResult :=
  if !ext.verifyOk then
    { store := store, count := 0, posts := [], fatal := true,
      trace := [Ev.verify] }
  else if !ext.dialOk then
    { store := store, count := 0, posts := [], fatal := true,
      trace := [Ev.verify, Ev.dial] }
  else
    runItems ext env store 0 0 [] [Ev.verify, Ev.dial, Ev.ensureIndex] items

/-- An oracle where every external call succeeds. -/
def okExt : Ext :=
  { verifyOk := true, dialOk := true, findErr := fun _ => false,
    postOk := fun _ => true, insertFail := fun _ => false }

/-! ### Helper lemmas on the branches of `tweetItem` and `insertResult` -/

theorem existsCount_append (s t : List Tweet) (u : String) :
    existsCount (s ++ t) u = existsCount s u + existsCount t u := by
  simp [existsCount, List.filter_append]

theorem findCount_fst_of_ok {ext : Ext} {u : String} (store : List Tweet)
    (h : ext.findErr u = false) :
    (findCount ext store u).1 = existsCount store u := by
  simp [findCount, h]

theorem findCount_fst_of_absent {ext : Ext} {store : List Tweet} {u : String}
    (h : existsCount store u = 0) :
    (findCount ext store u).1 = 0 := by
  unfold findCount
  cases hf : ext.findErr u <;> simp [hf, h]

theorem insertResult_ok {ext : Ext} {store : List Tweet} {t : Tweet}
    (h1 : existsCount store t.url = 0) (h2 : ext.insertFail t.url = false) :
    insertResult ext store t = (store ++ [t], true) := by
  simp [insertResult, h1, h2]

theorem insertResult_fail {ext : Ext} {store : List Tweet} {t : Tweet}
    (h : 0 < existsCount store t.url ∨ ext.insertFail t.url = true) :
    insertResult ext store t = (store, false) := by
  rcases h with h | h
  · simp [insertResult, h]
  · simp [insertResult, h]

theorem tweetItem_skip_count {ext : Ext} {store : List Tweet} {item : Item}
    (env : String) (clock : Nat)
    (hc : 0 < (findCount ext store item.link).1) :
    tweetItem ext env store clock item =
      { store := store, sent := false, posts := [], fatal := false,
        trace := [Ev.acquire, Ev.query item.link, Ev.release] } := by
  unfold tweetItem
  simp [hc]

theorem tweetItem_skip {ext : Ext} {store : List Tweet} {item : Item}
    (env : String) (clock : Nat)
    (h1 : ext.findErr item.link = false) (h2 : 0 < existsCount store item.link) :
    tweetItem ext env store clock item =
      { store := store, sent := false, posts := [], fatal := false,
        trace := [Ev.acquire, Ev.query item.link, Ev.release] } := by
  apply tweetItem_skip_count
  rw [findCount_fst_of_ok store h1]
  exact h2

theorem tweetItem_fatal {ext : Ext} {env : String} {store : List Tweet}
    {item : Item} (clock : Nat)
    (hc : (findCount ext store item.link).1 = 0)
    (henv : env ≠ "development")
    (hp : ext.postOk (tweetText item) = false) :
    tweetItem ext env store clock item =
      { store := store, sent := false, posts := [tweetText item], fatal := true,
        trace := [Ev.acquire, Ev.query item.link, Ev.post (tweetText item)] } := by
  unfold tweetItem
  rw [hc]
  simp [henv, hp]

theorem tweetItem_prod_new {ext : Ext} {env : String} {store : List Tweet}
    {item : Item} (clock : Nat)
    (hc : (findCount ext store item.link).1 = 0)
    (henv : env ≠ "development")
    (hp : ext.postOk (tweetText item) = true) :
    tweetItem ext env store clock item =
      { store := (insertResult ext store
          { title := item.title, url := item.link, timestamp := clock }).1,
        sent := true, posts := [tweetText item], fatal := false,
        trace := [Ev.acquire, Ev.query item.link, Ev.post (tweetText item),
          Ev.insert item.link, Ev.release] } := by
  unfold tweetItem
  rw [hc]
  simp [henv, hp]

theorem tweetItem_dev_new {ext : Ext} {env : String} {store : List Tweet}
    {item : Item} (clock : Nat)
    (hc : (findCount ext store item.link).1 = 0)
    (henv : env = "development") :
    tweetItem ext env store clock item =
      { store := (insertResult ext store
          { title := item.title, url := item.link, timestamp := clock }).1,
        sent := true, posts := [], fatal := false,
        trace := [Ev.acquire, Ev.query item.link, Ev.insert item.link,
          Ev.release] } := by
  unfold tweetItem
  rw [hc]
  simp [henv]

/-- Store operations: connect (`mgo.Dial`), schema setup, session copy and
close, the dedup query, and the insert. `verify` and `post` are Publisher
calls, not store operations. -/
def isStoreOp : Ev → Bool
  | Ev.verify => false
  | Ev.dial => true
  | Ev.ensureIndex => true
  | Ev.acquire => true
  | Ev.query _ => true
  | Ev.post _ => false
  | Ev.insert _ => true
  | Ev.release => true

theorem runItems_nil (ext : Ext) (env : String) (store : List Tweet)
    (clock count : Nat) (posts : List String) (trace : List Ev) :
    runItems ext env store clock count posts trace [] =
      { store := store, count := count, posts := posts, fatal := false,
        trace := trace } := rfl

theorem runItems_cons (ext : Ext) (env : String) (store : List Tweet)
    (clock count : Nat) (posts : List String) (trace : List Ev) (item : Item)
    (rest : List Item) :
    runItems ext env store clock count posts trace (item :: rest) =
      (if (tweetItem ext env store clock item).fatal then
        { store := (tweetItem ext env store clock item).store, count := count,
          posts := posts ++ (tweetItem ext env store clock item).posts,
          fatal := true,
          trace := trace ++ (tweetItem ext env store clock item).trace }
      else
        runItems ext env (tweetItem ext env store clock item).store (clock + 1)
          (count + if (tweetItem ext env store clock item).sent then 1 else 0)
          (posts ++ (tweetItem ext env store clock item).posts)
          (trace ++ (tweetItem ext env store clock item).trace) rest) := rfl

theorem runItems_cons_fatal {ext : Ext} {env : String} {store : List Tweet}
    {clock : Nat} {item : Item} (count : Nat) (posts : List String)
    (trace : List Ev) (rest : List Item)
    (h : (tweetItem ext env store clock item).fatal = true) :
    runItems ext env store clock count posts trace (item :: rest) =
      { store := (tweetItem ext env store clock item).store, count := count,
        posts := posts ++ (tweetItem ext env store clock item).posts,
        fatal := true,
        trace := trace ++ (tweetItem ext env store clock item).trace } := by
  rw [runItems_cons, if_pos h]

theorem runItems_cons_ok {ext : Ext} {env : String} {store : List Tweet}
    {clock : Nat} {item : Item} (count : Nat) (posts : List String)
    (trace : List Ev) (rest : List Item)
    (h : (tweetItem ext env store clock item).fatal = false) :
    runItems ext env store clock count posts trace (item :: rest) =
      runItems ext env (tweetItem ext env store clock item).store (clock + 1)
        (count + if (tweetItem ext env store clock item).sent then 1 else 0)
        (posts ++ (tweetItem ext env store clock item).posts)
        (trace ++ (tweetItem ext env store clock item).trace) rest := by
  rw [runItems_cons]
  simp [h]

theorem runItems_trace_prefix (ext : Ext) (env : String) :
    ∀ (items : List Item) (store : List Tweet) (clock count : Nat)
      (posts : List String) (trace : List Ev),
      ∃ t, (runItems ext env store clock count posts trace items).trace
        = trace ++ t
  | [], _, _, _, _, _ => ⟨[], by simp [runItems_nil]⟩
  | item :: rest, store, clock, count, posts, trace => by
      cases hf : (tweetItem ext env store clock item).fatal with
      | true =>
          exact ⟨(tweetItem ext env store clock item).trace,
            by rw [runItems_cons_fatal count posts trace rest hf]⟩
      | false =>
          rw [runItems_cons_ok count posts trace rest hf]
          obtain ⟨t, ht⟩ := runItems_trace_prefix ext env rest
            (tweetItem ext env store clock item).store (clock + 1)
            (count + if (tweetItem ext env store clock item).sent then 1 else 0)
            (posts ++ (tweetItem ext env store clock item).posts)
            (trace ++ (tweetItem ext env store clock item).trace)
          exact ⟨(tweetItem ext env store clock item).trace ++ t,
            by rw [ht, List.append_assoc]⟩

/-! ### Claim theorems -/

/-- Claim C2: for a candidate item whose url already has a Published Record
(and whose dedup query succeeds), processing the item makes zero Publisher
calls, performs no store insert, leaves the store unchanged, and returns
`false`, so the published count is not incremented. -/
theorem dedup_skip (ext : Ext) (env : String) (store : List Tweet)
    (clock : Nat) (item : Item)
    (hfind : ext.findErr item.link = false)
    (hdup : 0 < existsCount store item.link) :
    (tweetItem ext env store clock item).posts = [] ∧
    (tweetItem ext env store clock item).store = store ∧
    (tweetItem ext env store clock item).sent = false ∧
    Ev.insert item.link ∉ (tweetItem ext env store clock item).trace ∧
    ∀ m, Ev.post m ∉ (tweetItem ext env store clock item).trace := by
  rw [tweetItem_skip env clock hfind hdup]
  refine ⟨rfl, rfl, rfl, ?_, ?_⟩ <;> simp

/-- Claim C2 witness: a concrete item whose url is already recorded is
skipped. -/
theorem dedup_skip_witness :
    (tweetItem okExt "production"
        [{ title := "T", url := "http://u", timestamp := 0 }] 1
        { title := "T", link := "http://u" }).posts = [] ∧
    (tweetItem okExt "production"
        [{ title := "T", url := "http://u", timestamp := 0 }] 1
        { title := "T", link := "http://u" }).sent = false :=
  ⟨(dedup_skip okExt "production"
      [{ title := "T", url := "http://u", timestamp := 0 }] 1
      { title := "T", link := "http://u" } (by decide) (by decide)).1,
   (dedup_skip okExt "production"
      [{ title := "T", url := "http://u", timestamp := 0 }] 1
      { title := "T", link := "http://u" } (by decide) (by decide)).2.2.1⟩

/-- Claim C4: in development mode, a genuinely new item is never posted to
the Publisher, yet a Published Record is inserted and `tweetItem` returns
`true`, so the count is still incremented. -/
theorem dry_run_neutrality (ext : Ext) (env : String) (store : List Tweet)
    (clock : Nat) (item : Item)
    (henv : env = "development")
    (hnew : existsCount store item.link = 0)
    (hins : ext.insertFail item.link = false) :
    (tweetItem ext env store clock item).posts = [] ∧
    (∀ m, Ev.post m ∉ (tweetItem ext env store clock item).trace) ∧
    (tweetItem ext env store clock item).store =
      store ++ [{ title := item.title, url := item.link, timestamp := clock }] ∧
    (tweetItem ext env store clock item).sent = true := by
  have hc := @findCount_fst_of_absent ext store item.link hnew
  rw [tweetItem_dev_new clock hc henv, insertResult_ok hnew hins]
  exact ⟨rfl, by simp, rfl, rfl⟩

/-- Claim C4 witness: a concrete new item in development mode is recorded
and counted without a Publisher call. -/
theorem dry_run_neutrality_witness :
    (tweetItem okExt "development" [] 0 { title := "T", link := "http://u" }).posts = [] ∧
    (tweetItem okExt "development" [] 0 { title := "T", link := "http://u" }).store =
      [{ title := "T", url := "http://u", timestamp := 0 }] ∧
    (tweetItem okExt "development" [] 0 { title := "T", link := "http://u" }).sent = true := by
  obtain ⟨h1, _, h3, h4⟩ := dry_run_neutrality okExt "development" [] 0
    { title := "T", link := "http://u" } rfl (by decide) (by decide)
  exact ⟨h1, by rw [h3]; rfl, h4⟩

/-- Claim C5: end-to-end example: empty store, production mode, feed
`[{X, http://a}, {Y, http://b}]` gives exactly two Publisher calls in feed
order with messages `"X\nhttp://a"` and `"Y\nhttp://b"`, exactly two new
Published Records with those urls, and a reported count of 2. -/
theorem end_to_end_example :
    tweetFeed okExt "production" []
      [{ title := "X", link := "http://a" }, { title := "Y", link := "http://b" }] =
      { store := [{ title := "X", url := "http://a", timestamp := 0 },
                  { title := "Y", url := "http://b", timestamp := 1 }],
        count := 2,
        posts := ["X\nhttp://a", "Y\nhttp://b"],
        fatal := false,
        trace := [Ev.verify, Ev.dial, Ev.ensureIndex,
          Ev.acquire, Ev.query "http://a", Ev.post "X\nhttp://a",
          Ev.insert "http://a", Ev.release,
          Ev.acquire, Ev.query "http://b", Ev.post "Y\nhttp://b",
          Ev.insert "http://b", Ev.release] } := by decide

/-- Claim C6: every message handed to the Publisher by `tweetItem` is
exactly the item's title, one newline, and the item's link. -/
theorem message_format (ext : Ext) (env : String) (store : List Tweet)
    (clock : Nat) (item : Item) (m : String)
    (hm : m ∈ (tweetItem ext env store clock item).posts) :
    m = item.title ++ "\n" ++ item.link := by
  by_cases hc : 0 < (findCount ext store item.link).1
  · rw [tweetItem_skip_count env clock hc] at hm
    simp at hm
  · have hc0 : (findCount ext store item.link).1 = 0 := by omega
    by_cases henv : env = "development"
    · rw [tweetItem_dev_new clock hc0 henv] at hm
      simp at hm
    · by_cases hp : ext.postOk (tweetText item) = true
      · rw [tweetItem_prod_new clock hc0 henv hp] at hm
        simp at hm
        rw [hm]; rfl
      · rw [tweetItem_fatal clock hc0 henv (by simpa using hp)] at hm
        simp at hm
        rw [hm]; rfl

/-- Claim C6 witness: the concrete message for a concrete item. -/
theorem message_format_witness :
    "T\nhttp://u" = "T" ++ "\n" ++ "http://u" :=
  message_format okExt "production" [] 0 { title := "T", link := "http://u" }
    "T\nhttp://u" (by decide)

/-- Claim C9: when the dedup query errors, the error is discarded and the
count reads as zero, so the item is treated as new: the Publisher is
invoked, the insert is attempted, and the item is neither skipped nor does
the query failure abort the run (shown here in production mode with a
successful post). -/
theorem find_error_discarded (ext : Ext) (env : String) (store : List Tweet)
    (clock : Nat) (item : Item)
    (herr : ext.findErr item.link = true)
    (henv : env ≠ "development")
    (hp : ext.postOk (tweetText item) = true) :
    (findCount ext store item.link).1 = 0 ∧
    (tweetItem ext env store clock item).sent = true ∧
    (tweetItem ext env store clock item).posts = [tweetText item] ∧
    Ev.insert item.link ∈ (tweetItem ext env store clock item).trace ∧
    (tweetItem ext env store clock item).fatal = false := by
  have hc : (findCount ext store item.link).1 = 0 := by simp [findCount, herr]
  rw [tweetItem_prod_new clock hc henv hp]
  exact ⟨hc, rfl, rfl, by simp, rfl⟩

/-- Claim C9 witness: with a failing dedup query, an item whose url is in
fact already recorded is still posted again and the insert is attempted. -/
theorem find_error_discarded_witness :
    (tweetItem
        { verifyOk := true, dialOk := true, findErr := fun _ => true,
          postOk := fun _ => true, insertFail := fun _ => false }
        "production" [{ title := "T", url := "http://u", timestamp := 0 }] 1
        { title := "T", link := "http://u" }).sent = true ∧
    (tweetItem
        { verifyOk := true, dialOk := true, findErr := fun _ => true,
          postOk := fun _ => true, insertFail := fun _ => false }
        "production" [{ title := "T", url := "http://u", timestamp := 0 }] 1
        { title := "T", link := "http://u" }).posts = ["T\nhttp://u"] := by
  obtain ⟨_, h2, h3, _, _⟩ := find_error_discarded
    { verifyOk := true, dialOk := true, findErr := fun _ => true,
      postOk := fun _ => true, insertFail := fun _ => false }
    "production" [{ title := "T", url := "http://u", timestamp := 0 }] 1
    { title := "T", link := "http://u" } rfl (by decide) rfl
  exact ⟨h2, by rw [h3]; rfl⟩

/-- Claim C10: when the count read is zero and the fatal publish path is not
taken, an insert failure of any kind leaves the store unchanged yet
`tweetItem` still returns `true`: the item is counted and the loop continues
to the remaining items. -/
theorem insert_error_swallowed (ext : Ext) (env : String) (store : List Tweet)
    (clock count : Nat) (posts : List String) (trace : List Ev) (item : Item)
    (rest : List Item)
    (hc : (findCount ext store item.link).1 = 0)
    (hfail : ext.insertFail item.link = true)
    (hnf : env = "development" ∨ ext.postOk (tweetText item) = true) :
    (tweetItem ext env store clock item).sent = true ∧
    (tweetItem ext env store clock item).store = store ∧
    (tweetItem ext env store clock item).fatal = false ∧
    runItems ext env store clock count posts trace (item :: rest) =
      runItems ext env store (clock + 1) (count + 1)
        (posts ++ (tweetItem ext env store clock item).posts)
        (trace ++ (tweetItem ext env store clock item).trace) rest := by
  have hins : insertResult ext store
      { title := item.title, url := item.link, timestamp := clock } =
      (store, false) := insertResult_fail (Or.inr hfail)
  have hr : (tweetItem ext env store clock item).sent = true ∧
      (tweetItem ext env store clock item).store = store ∧
      (tweetItem ext env store clock item).fatal = false := by
    by_cases henv : env = "development"
    · rw [tweetItem_dev_new clock hc henv, hins]
      exact ⟨rfl, rfl, rfl⟩
    · rcases hnf with henv' | hp
      · exact absurd henv' henv
      · rw [tweetItem_prod_new clock hc henv hp, hins]
        exact ⟨rfl, rfl, rfl⟩
  refine ⟨hr.1, hr.2.1, hr.2.2, ?_⟩
  rw [runItems_cons_ok count posts trace rest hr.2.2, hr.1, hr.2.1]
  simp

/-- Claim C10 witness: a concrete new item whose insert fails is still
counted and the run proceeds to the rest of the feed. -/
theorem insert_error_swallowed_witness :
    (tweetItem
        { verifyOk := true, dialOk := true, findErr := fun _ => false,
          postOk := fun _ => true, insertFail := fun _ => true }
        "production" [] 0 { title := "T", link := "http://u" }).sent = true ∧
    (tweetItem
        { verifyOk := true, dialOk := true, findErr := fun _ => false,
          postOk := fun _ => true, insertFail := fun _ => true }
        "production" [] 0 { title := "T", link := "http://u" }).store = [] := by
  obtain ⟨h1, h2, _, _⟩ := insert_error_swallowed
    { verifyOk := true, dialOk := true, findErr := fun _ => false,
      postOk := fun _ => true, insertFail := fun _ => true }
    "production" [] 0 0 [] [] { title := "T", link := "http://u" } []
    (by decide) rfl (Or.inr rfl)
  exact ⟨h1, h2⟩

/-- Claim C7: the very first event of every invocation is credential
verification, and when verification fails the invocation aborts fatally
with the store untouched, no Publisher call, and no store operation of any
kind (connect, query, or insert) performed. -/
theorem verify_before_store (ext : Ext) (env : String) (store : List Tweet)
    (items : List Item) :
    (tweetFeed ext env store items).trace.head? = some Ev.verify ∧
    (ext.verifyOk = false →
      tweetFeed ext env store items =
        { store := store, count := 0, posts := [], fatal := true,
          trace := [Ev.verify] } ∧
      (tweetFeed ext env store items).trace.filter (fun e => isStoreOp e) = []) := by
  constructor
  · unfold tweetFeed
    cases hv : ext.verifyOk with
    | false => simp
    | true =>
        cases hd : ext.dialOk with
        | false => simp
        | true =>
            simp only [Bool.not_true, Bool.false_eq_true, if_false]
            obtain ⟨t, ht⟩ := runItems_trace_prefix ext env items store 0 0 []
              [Ev.verify, Ev.dial, Ev.ensureIndex]
            rw [ht]
            rfl
  · intro hv
    have h : tweetFeed ext env store items =
        { store := store, count := 0, posts := [], fatal := true,
          trace := [Ev.verify] } := by
      unfold tweetFeed
      rw [hv]
      rfl
    exact ⟨h, by rw [h]; rfl⟩

/-- Claim C7 witness: with failing credentials, a concrete invocation stops
at the verification step with no store operation. -/
theorem verify_before_store_witness :
    tweetFeed
        { verifyOk := false, dialOk := true, findErr := fun _ => false,
          postOk := fun _ => true, insertFail := fun _ => false }
        "production" [] [{ title := "T", link := "http://u" }] =
      { store := [], count := 0, posts := [], fatal := true,
        trace := [Ev.verify] } :=
  ((verify_before_store
      { verifyOk := false, dialOk := true, findErr := fun _ => false,
        postOk := fun _ => true, insertFail := fun _ => false }
      "production" [] [{ title := "T", link := "http://u" }]).2 rfl).1

/-- Claim C8 counterexample: on the publish-failure path `log.Fatal` exits
the process without running the deferred `session.Close`, so the session
acquired for that item is never released: the claim that every acquired
connection is released on every control path fails at this input. -/
theorem release_skipped_on_fatal :
    Ev.acquire ∈ (tweetItem
        { verifyOk := true, dialOk := true, findErr := fun _ => false,
          postOk := fun _ => false, insertFail := fun _ => false }
        "production" [] 0 { title := "T", link := "http://u" }).trace ∧
    Ev.release ∉ (tweetItem
        { verifyOk := true, dialOk := true, findErr := fun _ => false,
          postOk := fun _ => false, insertFail := fun _ => false }
        "production" [] 0 { title := "T", link := "http://u" }).trace ∧
    (tweetItem
        { verifyOk := true, dialOk := true, findErr := fun _ => false,
          postOk := fun _ => false, insertFail := fun _ => false }
        "production" [] 0 { title := "T", link := "http://u" }).fatal = true := by
  decide

/-- Claim C8 (amended): on every control path on which the per-item unit of
work completes (every path except the fatal publish-failure exit), exactly
one session is acquired and exactly one is released, and the release is the
last event of the unit of work. -/
theorem session_released_when_not_fatal (ext : Ext) (env : String)
    (store : List Tweet) (clock : Nat) (item : Item)
    (h : (tweetItem ext env store clock item).fatal = false) :
    (tweetItem ext env store clock item).trace.count Ev.acquire = 1 ∧
    (tweetItem ext env store clock item).trace.count Ev.release = 1 ∧
    (tweetItem ext env store clock item).trace.getLast? = some Ev.release := by
  by_cases hc : 0 < (findCount ext store item.link).1
  · rw [tweetItem_skip_count env clock hc]
    refine ⟨?_, ?_, rfl⟩ <;> simp [List.count_cons]
  · have hc0 : (findCount ext store item.link).1 = 0 := by omega
    by_cases henv : env = "development"
    · rw [tweetItem_dev_new clock hc0 henv]
      refine ⟨?_, ?_, rfl⟩ <;> simp [List.count_cons]
    · by_cases hp : ext.postOk (tweetText item) = true
      · rw [tweetItem_prod_new clock hc0 henv hp]
        refine ⟨?_, ?_, rfl⟩ <;> simp [List.count_cons]
      · rw [tweetItem_fatal clock hc0 henv (by simpa using hp)] at h
        cases h

/-- Claim C8 (amended) witness: a concrete successful item acquires and
releases exactly one session, releasing last. -/
theorem session_released_when_not_fatal_witness :
    (tweetItem okExt "production" [] 0
        { title := "T", link := "http://u" }).trace.count Ev.acquire = 1 ∧
    (tweetItem okExt "production" [] 0
        { title := "T", link := "http://u" }).trace.count Ev.release = 1 ∧
    (tweetItem okExt "production" [] 0
        { title := "T", link := "http://u" }).trace.getLast? = some Ev.release :=
  session_released_when_not_fatal okExt "production" [] 0
    { title := "T", link := "http://u" } (by decide)

/-- Claim C3: production mode, three new items, the Publisher fails on the
second: the first item's Published Record is created and remains, the run
aborts fatally during the second item (whose record is never inserted), and
the third item is never attempted — it appears nowhere in the result. -/
theorem fail_fast_on_publish_error (ext : Ext) (env : String)
    (store : List Tweet) (a b c : Item)
    (hv : ext.verifyOk = true) (hd : ext.dialOk = true)
    (henv : env ≠ "development")
    (haNew : existsCount store a.link = 0)
    (haIns : ext.insertFail a.link = false)
    (hpA : ext.postOk (tweetText a) = true)
    (hbNew : existsCount store b.link = 0)
    (hab : b.link ≠ a.link)
    (hpB : ext.postOk (tweetText b) = false) :
    tweetFeed ext env store [a, b, c] =
      { store := store ++ [{ title := a.title, url := a.link, timestamp := 0 }],
        count := 1,
        posts := [tweetText a, tweetText b],
        fatal := true,
        trace := [Ev.verify, Ev.dial, Ev.ensureIndex, Ev.acquire,
          Ev.query a.link, Ev.post (tweetText a), Ev.insert a.link, Ev.release,
          Ev.acquire, Ev.query b.link, Ev.post (tweetText b)] } := by
  have hcA : (findCount ext store a.link).1 = 0 := findCount_fst_of_absent haNew
  have hrA : tweetItem ext env store 0 a =
      { store := store ++ [{ title := a.title, url := a.link, timestamp := 0 }],
        sent := true, posts := [tweetText a], fatal := false,
        trace := [Ev.acquire, Ev.query a.link, Ev.post (tweetText a),
          Ev.insert a.link, Ev.release] } := by
    rw [tweetItem_prod_new 0 hcA henv hpA, insertResult_ok haNew haIns]
  have hbNew1 : existsCount
      (store ++ [{ title := a.title, url := a.link, timestamp := 0 }]) b.link
      = 0 := by
    rw [existsCount_append, hbNew]
    simp [existsCount, Ne.symm hab]
  have hcB : (findCount ext
      (store ++ [{ title := a.title, url := a.link, timestamp := 0 }])
      b.link).1 = 0 := findCount_fst_of_absent hbNew1
  have hrB : tweetItem ext env
      (store ++ [{ title := a.title, url := a.link, timestamp := 0 }]) 1 b =
      { store := store ++ [{ title := a.title, url := a.link, timestamp := 0 }],
        sent := false, posts := [tweetText b], fatal := true,
        trace := [Ev.acquire, Ev.query b.link, Ev.post (tweetText b)] } :=
    tweetItem_fatal 1 hcB henv hpB
  have step0 : tweetFeed ext env store [a, b, c] =
      runItems ext env store 0 0 [] [Ev.verify, Ev.dial, Ev.ensureIndex]
        [a, b, c] := by
    unfold tweetFeed
    simp [hv, hd]
  rw [step0,
    runItems_cons_ok 0 [] [Ev.verify, Ev.dial, Ev.ensureIndex] [b, c]
      (by rw [hrA]),
    hrA]
  dsimp only
  simp only [List.cons_append, List.nil_append, Nat.zero_add, if_true]
  rw [runItems_cons_fatal 1 [tweetText a]
      [Ev.verify, Ev.dial, Ev.ensureIndex, Ev.acquire, Ev.query a.link,
        Ev.post (tweetText a), Ev.insert a.link, Ev.release] [c]
      (by rw [hrB]),
    hrB]
  simp

/-- Claim C3 witness: the concrete three-item scenario from an empty store:
exactly one Published Record (the first item's) exists afterward and the
run reports failure. -/
theorem fail_fast_on_publish_error_witness :
    tweetFeed
        { verifyOk := true, dialOk := true, findErr := fun _ => false,
          postOk := fun m => ! (m == "B\nhttp://b"),
          insertFail := fun _ => false }
        "production" []
        [{ title := "A", link := "http://a" }, { title := "B", link := "http://b" },
          { title := "C", link := "http://c" }] =
      { store := [{ title := "A", url := "http://a", timestamp := 0 }],
        count := 1,
        posts := ["A\nhttp://a", "B\nhttp://b"],
        fatal := true,
        trace := [Ev.verify, Ev.dial, Ev.ensureIndex, Ev.acquire,
          Ev.query "http://a", Ev.post "A\nhttp://a", Ev.insert "http://a",
          Ev.release, Ev.acquire, Ev.query "http://b",
          Ev.post "B\nhttp://b"] } := by
  have h := fail_fast_on_publish_error
    { verifyOk := true, dialOk := true, findErr := fun _ => false,
      postOk := fun m => ! (m == "B\nhttp://b"), insertFail := fun _ => false }
    "production" [] { title := "A", link := "http://a" }
    { title := "B", link := "http://b" } { title := "C", link := "http://c" }
    rfl rfl (by decide) rfl rfl (by decide) rfl (by decide) (by decide)
  rw [h]
  rfl

/-! ### Idempotence -/

/-- A benign environment for an item: its dedup query and insert do not
error and posting its message succeeds. -/
def benign (ext : Ext) (it : Item) : Prop :=
  ext.findErr it.link = false ∧ ext.insertFail it.link = false ∧
    ext.postOk (tweetText it) = true

theorem existsCount_pos_append {s : List Tweet} {u : String}
    (t : List Tweet) (h : 0 < existsCount s u) :
    0 < existsCount (s ++ t) u := by
  rw [existsCount_append]
  omega

theorem insertResult_fst_append (ext : Ext) (store : List Tweet) (t : Tweet) :
    ∃ tail, (insertResult ext store t).1 = store ++ tail := by
  unfold insertResult
  split
  · exact ⟨[], by simp⟩
  · exact ⟨[t], rfl⟩

theorem tweetItem_store_append (ext : Ext) (env : String) (store : List Tweet)
    (clock : Nat) (item : Item) :
    ∃ tail, (tweetItem ext env store clock item).store = store ++ tail := by
  by_cases hc : 0 < (findCount ext store item.link).1
  · rw [tweetItem_skip_count env clock hc]
    exact ⟨[], by simp⟩
  · have hc0 : (findCount ext store item.link).1 = 0 := by omega
    by_cases henv : env = "development"
    · rw [tweetItem_dev_new clock hc0 henv]
      exact insertResult_fst_append ext store _
    · by_cases hp : ext.postOk (tweetText item) = true
      · rw [tweetItem_prod_new clock hc0 henv hp]
        exact insertResult_fst_append ext store _
      · rw [tweetItem_fatal clock hc0 henv (by simpa using hp)]
        exact ⟨[], by simp⟩

theorem runItems_store_append (ext : Ext) (env : String) :
    ∀ (items : List Item) (store : List Tweet) (clock count : Nat)
      (posts : List String) (trace : List Ev),
      ∃ tail, (runItems ext env store clock count posts trace items).store
        = store ++ tail
  | [], store, _, _, _, _ => ⟨[], by simp [runItems_nil]⟩
  | item :: rest, store, clock, count, posts, trace => by
      cases hf : (tweetItem ext env store clock item).fatal with
      | true =>
          rw [runItems_cons_fatal count posts trace rest hf]
          exact tweetItem_store_append ext env store clock item
      | false =>
          rw [runItems_cons_ok count posts trace rest hf]
          obtain ⟨t1, ht1⟩ := tweetItem_store_append ext env store clock item
          obtain ⟨t2, ht2⟩ := runItems_store_append ext env rest
            (tweetItem ext env store clock item).store (clock + 1)
            (count + if (tweetItem ext env store clock item).sent then 1 else 0)
            (posts ++ (tweetItem ext env store clock item).posts)
            (trace ++ (tweetItem ext env store clock item).trace)
          exact ⟨t1 ++ t2, by rw [ht2, ht1, List.append_assoc]⟩

theorem tweetItem_covers {ext : Ext} {item : Item} (env : String)
    (store : List Tweet) (clock : Nat) (hb : benign ext item) :
    0 < existsCount (tweetItem ext env store clock item).store item.link ∧
    (tweetItem ext env store clock item).fatal = false := by
  obtain ⟨hfind, hins, hpost⟩ := hb
  by_cases hdup : 0 < existsCount store item.link
  · rw [tweetItem_skip env clock hfind hdup]
    exact ⟨hdup, rfl⟩
  · have hnew : existsCount store item.link = 0 := by omega
    have hc := @findCount_fst_of_absent ext store item.link hnew
    have hres : existsCount
        (store ++ [{ title := item.title, url := item.link, timestamp := clock }])
        item.link > 0 := by
      rw [existsCount_append]
      simp [existsCount]
    by_cases henv : env = "development"
    · rw [tweetItem_dev_new clock hc henv, insertResult_ok hnew hins]
      exact ⟨hres, rfl⟩
    · rw [tweetItem_prod_new clock hc henv hpost, insertResult_ok hnew hins]
      exact ⟨hres, rfl⟩

theorem runItems_covers (ext : Ext) (env : String) :
    ∀ (items : List Item) (store : List Tweet) (clock count : Nat)
      (posts : List String) (trace : List Ev),
      (∀ it ∈ items, benign ext it) →
      ∀ it ∈ items,
        0 < existsCount
          (runItems ext env store clock count posts trace items).store it.link
  | [], _, _, _, _, _ => by
      intro _ it hit
      cases hit
  | item :: rest, store, clock, count, posts, trace => by
      intro hb it hit
      have hbi : benign ext item := hb item (List.mem_cons_self item rest)
      obtain ⟨hcov, hnf⟩ := tweetItem_covers env store clock hbi
      rw [runItems_cons_ok count posts trace rest hnf]
      rcases List.mem_cons.mp hit with heq | hmem
      · subst heq
        obtain ⟨tail, htail⟩ := runItems_store_append ext env rest
          (tweetItem ext env store clock it).store (clock + 1)
          (count + if (tweetItem ext env store clock it).sent then 1 else 0)
          (posts ++ (tweetItem ext env store clock it).posts)
          (trace ++ (tweetItem ext env store clock it).trace)
        rw [htail]
        exact existsCount_pos_append tail hcov
      · exact runItems_covers ext env rest
          (tweetItem ext env store clock item).store (clock + 1)
          (count + if (tweetItem ext env store clock item).sent then 1 else 0)
          (posts ++ (tweetItem ext env store clock item).posts)
          (trace ++ (tweetItem ext env store clock item).trace)
          (fun x hx => hb x (List.mem_cons_of_mem item hx)) it hmem

theorem runItems_all_skip (ext : Ext) (env : String) :
    ∀ (items : List Item) (store : List Tweet) (clock count : Nat)
      (posts : List String) (trace : List Ev),
      (∀ it ∈ items, ext.findErr it.link = false ∧
        0 < existsCount store it.link) →
      (runItems ext env store clock count posts trace items).store = store ∧
      (runItems ext env store clock count posts trace items).count = count ∧
      (runItems ext env store clock count posts trace items).posts = posts ∧
      (runItems ext env store clock count posts trace items).fatal = false
  | [], store, _, count, posts, _ => by
      intro _
      simp [runItems_nil]
  | item :: rest, store, clock, count, posts, trace => by
      intro h
      have hi := h item (List.mem_cons_self item rest)
      have hr := @tweetItem_skip ext store item env clock hi.1 hi.2
      rw [runItems_cons_ok count posts trace rest (by rw [hr])]
      rw [hr]
      dsimp only
      simp only [List.append_nil, Bool.false_eq_true, if_false, Nat.add_zero]
      exact runItems_all_skip ext env rest store (clock + 1) count posts
        (trace ++ [Ev.acquire, Ev.query item.link, Ev.release])
        (fun x hx => h x (List.mem_cons_of_mem item hx))

/-- Claim C1: with benign external behaviour on the feed's items, running
the pipeline a second time against the same feed, starting from the store
the first run produced, changes nothing: the record set is unchanged, no
message is posted, and the reported published count is zero. -/
theorem pipeline_idempotent (ext : Ext) (env : String) (store : List Tweet)
    (items : List Item)
    (hv : ext.verifyOk = true) (hd : ext.dialOk = true)
    (hb : ∀ it ∈ items, benign ext it) :
    (tweetFeed ext env (tweetFeed ext env store items).store items).store
      = (tweetFeed ext env store items).store ∧
    (tweetFeed ext env (tweetFeed ext env store items).store items).count = 0 ∧
    (tweetFeed ext env (tweetFeed ext env store items).store items).posts = [] ∧
    (tweetFeed ext env (tweetFeed ext env store items).store items).fatal
      = false := by
  have hfeed : ∀ s : List Tweet, tweetFeed ext env s items =
      runItems ext env s 0 0 [] [Ev.verify, Ev.dial, Ev.ensureIndex] items := by
    intro s
    unfold tweetFeed
    simp [hv, hd]
  have hcov : ∀ it ∈ items,
      0 < existsCount (tweetFeed ext env store items).store it.link := by
    rw [hfeed store]
    exact runItems_covers ext env items store 0 0 []
      [Ev.verify, Ev.dial, Ev.ensureIndex] hb
  have hskip := runItems_all_skip ext env items
    (tweetFeed ext env store items).store 0 0 []
    [Ev.verify, Ev.dial, Ev.ensureIndex]
    (fun it hit => ⟨(hb it hit).1, hcov it hit⟩)
  rw [hfeed ((tweetFeed ext env store items).store)]
  exact hskip

/-- Claim C1 witness: a concrete second run over an unchanged one-item feed
leaves the store unchanged and reports zero. -/
theorem pipeline_idempotent_witness :
    (tweetFeed okExt "production"
        (tweetFeed okExt "production" [] [{ title := "X", link := "http://a" }]).store
        [{ title := "X", link := "http://a" }]).store
      = (tweetFeed okExt "production" [] [{ title := "X", link := "http://a" }]).store ∧
    (tweetFeed okExt "production"
        (tweetFeed okExt "production" [] [{ title := "X", link := "http://a" }]).store
        [{ title := "X", link := "http://a" }]).count = 0 :=
  ⟨(pipeline_idempotent okExt "production" []
      [{ title := "X", link := "http://a" }] rfl rfl
      (by intro it hit; simp at hit; subst hit; exact ⟨rfl, rfl, rfl⟩)).1,
   (pipeline_idempotent okExt "production" []
      [{ title := "X", link := "http://a" }] rfl rfl
      (by intro it hit; simp at hit; subst hit; exact ⟨rfl, rfl, rfl⟩)).2.1⟩

end TwBot
